import Mathlib

/-!
# Verification of the Synapsis repository-analysis and code-search core

Shallow embedding of the analysis pipeline (`analysis.service.ts`), the
single-flight start guard (`repositories.service.ts`) and the AST search and
ranking engine (`search.service.ts`).  JavaScript strings are modelled as
lists of characters; `String.prototype.includes` becomes list-infix
containment; JavaScript numbers are `Nat` where the source only ever adds
bounded non-negative integers and `ℚ` where genuine division occurs.
Each external effect (GitHub fetches, LLM generations, database rows) is an
explicit oracle input; a generation call that throws after its retries are
exhausted is an `Except.error`.
-/

namespace Synapsis

/-- JavaScript strings, modelled as lists of characters. -/
abbrev Str := List Char

/-- Coerce a Lean string literal into the model's string type. -/
def ofStr (s : String) : Str := s.data

/-- `hay.includes(needle)` — JavaScript substring containment. -/
def includes (hay needle : Str) : Bool := decide (needle <:+: hay)

/-- ASCII lower-casing of one character (`String.prototype.toLowerCase`
restricted to the ASCII range, which is all the source ever compares). -/
def lowerChar (c : Char) : Char :=
  if 'A' ≤ c ∧ c ≤ 'Z' then Char.ofNat (c.toNat + 32) else c

/-- `s.toLowerCase()`. -/
def lower (s : Str) : Str := s.map lowerChar

/-- Search Pattern Set produced by `LLMService.generateSearchPatterns`. -/
structure SearchPatternSet where
  searchTerms : List Str
  filePatterns : List Str
  codePatterns : List Str
  frameworkHints : List Str
deriving DecidableEq

/-- Source location of an AST element (`location.start.line` /
`location.end.line`). -/
structure SourceLoc where
  startLine : Nat
  endLine : Nat
deriving DecidableEq

/-- A general AST element (function, class or variable) as consumed by
`calculateBasicMatchScore`.  `text` stands for `JSON.stringify(element)`,
the serialized form the scorer actually scans; `name` is the element's
`name` property (`none` when absent). -/
structure ASTElement where
  name : Option Str
  text : Str
  location : Option SourceLoc
deriving DecidableEq

/-- An import statement element (`source` may be absent). -/
structure ImportElement where
  source : Option Str
  location : Option SourceLoc
deriving DecidableEq

/-- A comment element (`value` may be absent; `isJSDoc` marks doc comments). -/
structure CommentElement where
  value : Option Str
  isJSDoc : Bool
  location : Option SourceLoc
deriving DecidableEq

/-- `SearchService.calculateBasicMatchScore`: +50 for a case-insensitive
name hit of the raw query, +30 per search term, +25 per code pattern and
+20 per framework hint found in the serialized element text, capped at 100.
The running `score` variable of the source is threaded through the folds in
the same order as the source's loops. -/
def calculateBasicMatchScore (element : ASTElement) (searchPatterns : SearchPatternSet)
    (originalQuery : Str) : Nat :=
  let elementText := lower element.text
  let queryLower := lower originalQuery
  let score0 : Nat :=
    match element.name with
    | some n => if ¬n.isEmpty ∧ includes (lower n) queryLower then 50 else 0
    | none => 0
  let score1 := searchPatterns.searchTerms.foldl
    (fun score term => if includes elementText (lower term) then score + 30 else score) score0
  let score2 := searchPatterns.codePatterns.foldl
    (fun score pat => if includes elementText (lower pat) then score + 25 else score) score1
  let score3 := searchPatterns.frameworkHints.foldl
    (fun score hint => if includes elementText (lower hint) then score + 20 else score) score2
  min score3 100

/-- `SearchService.calculateImportMatchScore`: +60 for the raw query in
the source, +40 per framework hint, +35 per search term, capped at 100. -/
def calculateImportMatchScore (importStatement : ImportElement)
    (searchPatterns : SearchPatternSet) (originalQuery : Str) : Nat :=
  let source := lower (importStatement.source.getD [])
  let queryLower := lower originalQuery
  let score0 : Nat := if includes source queryLower then 60 else 0
  let score1 := searchPatterns.frameworkHints.foldl
    (fun score hint => if includes source (lower hint) then score + 40 else score) score0
  let score2 := searchPatterns.searchTerms.foldl
    (fun score term => if includes source (lower term) then score + 35 else score) score1
  min score2 100

/-- `SearchService.calculateCommentMatchScore`: +40 for the raw query in the
comment text, +20 per search term, +10 for a JSDoc comment, capped at 100. -/
def calculateCommentMatchScore (comment : CommentElement)
    (searchPatterns : SearchPatternSet) (originalQuery : Str) : Nat :=
  let commentText := lower (comment.value.getD [])
  let queryLower := lower originalQuery
  let score0 : Nat := if includes commentText queryLower then 40 else 0
  let score1 := searchPatterns.searchTerms.foldl
    (fun score term => if includes commentText (lower term) then score + 20 else score) score0
  let score2 := score1 + (if comment.isJSDoc then 10 else 0)
  min score2 100

/-! ## File Selector (`AnalysisService.getImportantFiles`) -/

/-- Entry kind of a GitHub tree item. -/
inductive TreeEntryType where
  | blob
  | tree
deriving DecidableEq

/-- One entry of the repository file tree (`GitHubTree`). -/
structure GitHubTree where
  path : Str
  type : TreeEntryType
deriving DecidableEq

/-- `needle` is a suffix of `hay` — the effect of an unanchored
`/...needle$/` JavaScript regex whose body is all literal characters. -/
def endsWith (hay needle : Str) : Bool := decide (needle <:+ hay)

/-- The extension alternation of the entry-point regexes
`/app\.(js|ts|py|rb|go|php)$/` etc. -/
def entryExts : List Str := [ofStr "js", ofStr "ts", ofStr "py", ofStr "rb", ofStr "go", ofStr "php"]

/-- The extension alternation of `/schema\.(js|ts|py|rb|sql)$/`. -/
def schemaExts : List Str := [ofStr "js", ofStr "ts", ofStr "py", ofStr "rb", ofStr "sql"]

/-- `importantPatterns.some(pattern => pattern.test(file.path))`: the ordered
disjunction of the high-priority regexes of `getImportantFiles`.  Each regex
is literal except for anchors, the `(a|b|…)` extension alternations, the
optional `s` of `models?`/`migrations?` and the `/i` flag, so each translates
to an equality, suffix or containment test (case-folded for `/i`). -/
def matchesImportantPattern (path : Str) : Bool :=
  -- Config files: /^package\.json$/ … /^go\.mod$/ (fully anchored)
  path == ofStr "package.json" ||
  path == ofStr "composer.json" ||
  path == ofStr "requirements.txt" ||
  path == ofStr "Gemfile" ||
  path == ofStr "pom.xml" ||
  path == ofStr "build.gradle" ||
  path == ofStr "Cargo.toml" ||
  path == ofStr "go.mod" ||
  -- Framework files
  includes path (ofStr "next.config.") ||
  includes path (ofStr "nuxt.config.") ||
  includes path (ofStr "vue.config.") ||
  endsWith path (ofStr "angular.json") ||
  endsWith path (ofStr "tsconfig.json") ||
  includes path (ofStr "webpack.config.") ||
  includes path (ofStr "vite.config.") ||
  -- API/Server files: /app\.(js|ts|py|rb|go|php)$/ …
  entryExts.any (fun ext => endsWith path (ofStr "app." ++ ext)) ||
  entryExts.any (fun ext => endsWith path (ofStr "main." ++ ext)) ||
  entryExts.any (fun ext => endsWith path (ofStr "index." ++ ext)) ||
  entryExts.any (fun ext => endsWith path (ofStr "server." ++ ext)) ||
  -- Database/Schema files
  schemaExts.any (fun ext => endsWith path (ofStr "schema." ++ ext)) ||
  includes path (ofStr "model/") || includes path (ofStr "models/") ||
  includes path (ofStr "migration/") || includes path (ofStr "migrations/") ||
  endsWith path (ofStr ".prisma") ||
  -- Documentation (case-insensitive)
  includes (lower path) (ofStr "readme.") ||
  includes (lower path) (ofStr "contributing.") ||
  includes (lower path) (ofStr "changelog.") ||
  includes (lower path) (ofStr "license") ||
  -- Docker
  endsWith path (ofStr "Dockerfile") ||
  includes path (ofStr "docker-compose.") ||
  -- CI/CD
  includes path (ofStr ".github/workflows/") ||
  includes path (ofStr ".gitlab-ci.") ||
  endsWith path (ofStr "Jenkinsfile")

/-- The medium-priority source-extension regex
`/\.(js|ts|jsx|tsx|py|rb|go|php|java|cs|cpp|c|rs|kt|swift)$/`. -/
def matchesMediumPattern (path : Str) : Bool :=
  [ofStr ".js", ofStr ".ts", ofStr ".jsx", ofStr ".tsx", ofStr ".py", ofStr ".rb",
   ofStr ".go", ofStr ".php", ofStr ".java", ofStr ".cs", ofStr ".cpp", ofStr ".c",
   ofStr ".rs", ofStr ".kt", ofStr ".swift"].any (fun ext => endsWith path ext)

/-- `AnalysisService.getImportantFiles`: high-priority matches first (tree
order, uncapped), then medium-priority source files not already selected and
not under a noise directory, capped at 30. -/
def getImportantFiles (tree : List GitHubTree) : List Str :=
  let files := tree.filter (fun item => item.type == TreeEntryType.blob)
  let highPriority := (files.filter (fun file => matchesImportantPattern file.path)).map
    (fun f => f.path)
  let mediumPriority := ((files.filter (fun file =>
      matchesMediumPattern file.path &&
      !highPriority.contains file.path &&
      !includes file.path (ofStr "node_modules") &&
      !includes file.path (ofStr ".git") &&
      !includes file.path (ofStr "vendor") &&
      !includes file.path (ofStr "build") &&
      !includes file.path (ofStr "dist"))).take 30).map (fun f => f.path)
  highPriority ++ mediumPriority

/-! ## Code metrics (`AnalysisService.calculateCodeMetrics`) -/

/-- One fetched file (`{ path, content | null }`). -/
structure FileContent where
  path : Str
  content : Option Str
deriving DecidableEq

/-- `content.split('\n').length`: one more than the number of newlines. -/
def linesCount (s : Str) : Nat := s.count '\n' + 1

/-- The extension list of `AnalysisService.isCodeFile`. -/
def codeExtensions : List Str :=
  [ofStr "js", ofStr "ts", ofStr "jsx", ofStr "tsx", ofStr "py", ofStr "rb", ofStr "go",
   ofStr "java", ofStr "php", ofStr "cs", ofStr "cpp", ofStr "c", ofStr "rs", ofStr "kt",
   ofStr "swift"]

/-- `filePath.split('.').pop()?.toLowerCase()`: the last dot-separated
segment, lower-cased (for a path with no dot this is the whole path). -/
def fileExt (filePath : Str) : Str :=
  lower ((filePath.splitOn '.').getLast?.getD [])

/-- `AnalysisService.isCodeFile`. -/
def isCodeFile (filePath : Str) : Bool := codeExtensions.contains (fileExt filePath)

/-- Complexity bucket of an analysis. -/
inductive Complexity where
  | low
  | medium
  | high
deriving DecidableEq

/-- Result of `calculateCodeMetrics`. -/
structure CodeMetrics where
  totalFiles : Nat
  linesOfCode : Nat
  complexity : Complexity
  maintainability : ℚ
deriving DecidableEq

/-- JavaScript truthiness of `f.content`: a missing content and the empty
string are both falsy, so the source's `f.content && isCodeFile(f.path)`
filter excludes files with empty content. -/
def contentTruthy (content : Option Str) : Bool :=
  match content with
  | some s => !s.isEmpty
  | none => false

/-- `AnalysisService.calculateCodeMetrics`: pure in the fetched contents and
the tree.  `maintainability = Math.max(1, Math.min(10, 10 - count / 10))`
with JavaScript real division, modelled in `ℚ`. -/
def calculateCodeMetrics (fileContents : List FileContent) (tree : List GitHubTree) :
    CodeMetrics :=
  let codeFiles := fileContents.filter (fun f => contentTruthy f.content && isCodeFile f.path)
  let totalLines := codeFiles.foldl
    (fun sum f => sum + (match f.content with | some c => linesCount c | none => 0)) 0
  let complexity : Complexity :=
    if codeFiles.length > 50 || totalLines > 10000 then .high
    else if codeFiles.length > 20 || totalLines > 5000 then .medium
    else .low
  { totalFiles := (tree.filter (fun item => item.type == TreeEntryType.blob)).length
    linesOfCode := totalLines
    complexity := complexity
    maintainability := max 1 (min 10 (10 - (codeFiles.length : ℚ) / 10)) }

/-! ## Analysis pipeline (`analyzeRepositoryWithStreaming` / `analyzeRepository`)

All external effects are oracle inputs.  An LLM generation that still fails
after its retries are exhausted, or a GitHub fetch that fails, is an
`Except.error` carrying the thrown message. -/

/-- Status of an Analysis record (`AnalysisStatus` of the Prisma schema). -/
inductive AnalysisStatus where
  | IN_PROGRESS
  | COMPLETED
  | FAILED
deriving DecidableEq

/-- Feature category enum of `RepositoryFeature.type`. -/
inductive FeatureType where
  | authentication | api | database | ui | testing | deployment | other
deriving DecidableEq

/-- A feature claim produced by the Feature Summarizer. -/
structure RepositoryFeature where
  name : Str
  description : Str
  files : List Str
  type : FeatureType
  implementation : Str
  dependencies : List Str
deriving DecidableEq

/-- One directory entry of a structure claim. -/
structure StructureDirectory where
  path : Str
  purpose : Str
  importance : ℚ
deriving DecidableEq

/-- A structure claim produced by the Structure Summarizer. -/
structure RepositoryStructure where
  architecture : Str
  patterns : List Str
  directories : List StructureDirectory
  entryPoints : List Str
  configFiles : List Str
deriving DecidableEq

/-- The local-failure default of the Structure Summarizer. -/
def defaultStructure : RepositoryStructure :=
  { architecture := ofStr "unknown", patterns := [], directories := [],
    entryPoints := [], configFiles := [] }

/-- A tech-stack claim produced by the TechStack Summarizer. -/
structure TechStack where
  frontend : Option (List Str) := none
  backend : Option (List Str) := none
  database : Option (List Str) := none
  tools : Option (List Str) := none
  frameworks : Option (List Str) := none
  languages : List Str
deriving DecidableEq

/-- The local-failure default of the TechStack Summarizer:
`{ languages: [] }`. -/
def defaultTechStack : TechStack := { languages := [] }

/-- Per-file AST artifact as consumed by the search side (the fields
`searchFileAST` reads; absent arrays of the JSON value are empty lists). -/
structure FileAST where
  path : Str
  language : Str
  size : Nat
  functions : List ASTElement
  classes : List ASTElement
  imports : List ImportElement
  «variables» : List ASTElement
  comments : List CommentElement
deriving DecidableEq

/-- The AST artifact set of one analysis (`astData.files`). -/
structure ASTData where
  files : List FileAST
deriving DecidableEq

/-- Aggregate language statistics (`getRepositoryStats`). -/
structure RepoStats where
  languages : List (Str × Nat)
deriving DecidableEq

/-- Terminal Analysis record as written by the pipeline's final update
(`none` payload fields on the FAILED branch, which only sets `status`,
`completedAt` and `errorMessage`). -/
structure AnalysisRecord where
  status : AnalysisStatus
  features : List RepositoryFeature
  «structure» : Option RepositoryStructure
  techStack : Option TechStack
  codeMetrics : Option CodeMetrics
  astData : Option ASTData
  summary : Option Str
  complexity : Option Complexity
  errorMessage : Option Str
deriving DecidableEq

/-- The FAILED terminal update (`status: FAILED, errorMessage`). -/
def failedRecord (e : Str) : AnalysisRecord :=
  { status := .FAILED, features := [], «structure» := none, techStack := none,
    codeMetrics := none, astData := none, summary := none, complexity := none,
    errorMessage := some e }

/-- Oracle of external effects of one analysis run.  Each LLM-backed stage
is the outcome of `llmService.generate` after its internal retries:
`Except.error` is a throw, `Except.ok` a schema-validated value. -/
structure AnalysisOracle where
  getRepositoryTree : Except Str (List GitHubTree)
  getMultipleFilesContent : List Str → Except Str (List FileContent)
  getReadmeContent : Except Str (Option Str)
  getRepositoryStats : Except Str RepoStats
  extractFeatures : Except Str (List RepositoryFeature)
  analyzeStructure : Except Str RepositoryStructure
  extractTechStack : Except Str TechStack
  generateAST : Except Str ASTData
  generateSummary : Except Str Str

/-- `AnalysisService.analyzeRepositoryWithStreaming`, as a function of the
oracle to the terminal Analysis record.  Stages 4–6 (the three Summarizers)
are individually guarded by `try`/`catch` and fall back to their defaults;
any other failure reaches the outer `catch`, which marks the record FAILED
with the thrown message. -/
def analyzeRepositoryWithStreaming (o : AnalysisOracle) : AnalysisRecord :=
  match o.getRepositoryTree with
  | .error e => failedRecord e
  | .ok tree =>
    let importantFiles := getImportantFiles tree
    match o.getMultipleFilesContent (importantFiles.take 50) with
    | .error e => failedRecord e
    | .ok fileContents =>
      match o.getReadmeContent with
      | .error e => failedRecord e
      | .ok _readmeContent =>
        match o.getRepositoryStats with
        | .error e => failedRecord e
        | .ok _stats =>
          let features := match o.extractFeatures with
            | .ok f => f
            | .error _ => []
          let structureResult := match o.analyzeStructure with
            | .ok s => s
            | .error _ => defaultStructure
          let techStack := match o.extractTechStack with
            | .ok t => t
            | .error _ => defaultTechStack
          match o.generateAST with
          | .error e => failedRecord e
          | .ok astData =>
            let codeMetrics := calculateCodeMetrics fileContents tree
            match o.generateSummary with
            | .error e => failedRecord e
            | .ok summary =>
              { status := .COMPLETED, features := features, «structure» := some structureResult,
                techStack := some techStack, codeMetrics := some codeMetrics,
                astData := some astData, summary := some summary,
                complexity := some codeMetrics.complexity, errorMessage := none }

/-- `AnalysisService.analyzeRepository` (the non-streaming entry point used
by `startAnalysis`): the three Summarizers and the AST generation run in a
bare `Promise.all` with no per-stage guard, so the first rejection aborts
the run and the record is marked FAILED. -/
def analyzeRepository (o : AnalysisOracle) : AnalysisRecord :=
  match o.getRepositoryTree with
  | .error e => failedRecord e
  | .ok tree =>
    let importantFiles := getImportantFiles tree
    match o.getMultipleFilesContent (importantFiles.take 100) with
    | .error e => failedRecord e
    | .ok fileContents =>
      match o.getReadmeContent with
      | .error e => failedRecord e
      | .ok _readmeContent =>
        match o.getRepositoryStats with
        | .error e => failedRecord e
        | .ok _stats =>
          match o.extractFeatures, o.analyzeStructure, o.extractTechStack, o.generateAST with
          | .error e, _, _, _ => failedRecord e
          | _, .error e, _, _ => failedRecord e
          | _, _, .error e, _ => failedRecord e
          | _, _, _, .error e => failedRecord e
          | .ok features, .ok structureResult, .ok techStack, .ok astData =>
            let codeMetrics := calculateCodeMetrics fileContents tree
            match o.generateSummary with
            | .error e => failedRecord e
            | .ok summary =>
              { status := .COMPLETED, features := features, «structure» := some structureResult,
                techStack := some techStack, codeMetrics := some codeMetrics,
                astData := some astData, summary := some summary,
                complexity := some codeMetrics.complexity, errorMessage := none }

/-! ## Single-flight guard (`RepositoriesService.startAnalysis`)

`startAnalysis` performs `prisma.analysis.findFirst({repositoryId, status:
IN_PROGRESS})` and, only when nothing is found, fires
`analysisService.analyzeRepository` as an unawaited background task whose
first action is `prisma.analysis.create({status: IN_PROGRESS})`.  The check
and the create are two separate persistence operations, so one invocation
is modelled as two atomic steps (`check`, then `create`) acting on the
analysis table of one repository; a schedule interleaves the steps of two
invocations. -/

/-- One row of the analysis table of the repository under consideration. -/
structure DbAnalysis where
  id : Nat
  status : AnalysisStatus
deriving DecidableEq

/-- The analysis table of one repository, in insertion order. -/
abbrev DbState := List DbAnalysis

/-- `findFirst({repositoryId, status: IN_PROGRESS})`. -/
def findInProgress (s : DbState) : Option DbAnalysis :=
  s.find? (fun a => a.status == AnalysisStatus.IN_PROGRESS)

/-- Number of IN_PROGRESS rows. -/
def countInProgress (s : DbState) : Nat :=
  (s.filter (fun a => a.status == AnalysisStatus.IN_PROGRESS)).length

/-- The local view of one in-flight `startAnalysis` invocation: whether its
`findFirst` has run, what it found, and whether its background
`analysis.create` has executed. -/
structure StartInvocation where
  checked : Bool := false
  foundExisting : Option DbAnalysis := none
  created : Bool := false
deriving DecidableEq

/-- The `findFirst` step of `startAnalysis`. -/
def stepCheck (s : DbState) (inv : StartInvocation) : StartInvocation :=
  { inv with checked := true, foundExisting := findInProgress s }

/-- The background `analysis.create` step: creates an IN_PROGRESS row only
when the invocation's own check found none (otherwise `startAnalysis`
returned the existing record and never scheduled the create). -/
def stepCreate (s : DbState) (inv : StartInvocation) (newId : Nat) :
    DbState × StartInvocation :=
  if inv.checked && inv.foundExisting.isNone && !inv.created then
    (s ++ [{ id := newId, status := .IN_PROGRESS }], { inv with created := true })
  else
    (s, inv)

/-- A scheduled atomic step: which of the two invocations acts, and which
of its two steps runs. -/
inductive StartStep where
  | check (second : Bool)
  | create (second : Bool)
deriving DecidableEq

/-- Run a schedule of steps of two `startAnalysis` invocations (`a` first
client, `b` second client); fresh row ids are drawn from `nextId`. -/
def runSchedule (sched : List StartStep) (s : DbState) (a b : StartInvocation)
    (nextId : Nat) : DbState × StartInvocation × StartInvocation :=
  match sched with
  | [] => (s, a, b)
  | step :: rest =>
    match step with
    | .check false => runSchedule rest s (stepCheck s a) b nextId
    | .check true => runSchedule rest s a (stepCheck s b) nextId
    | .create false =>
      let (s', a') := stepCreate s a nextId
      runSchedule rest s' a' b (nextId + 1)
    | .create true =>
      let (s', b') := stepCreate s b nextId
      runSchedule rest s' a b' (nextId + 1)

/-- The schedule in which the two invocations overlap: both checks run
before either background create.  `startAnalysis` returns before its
background task creates the record, so this schedule is realizable even for
two strictly consecutive HTTP calls. -/
def overlappingSchedule : List StartStep :=
  [.check false, .check true, .create false, .create true]

/-- The schedule in which the first invocation's background create commits
before the second invocation checks. -/
def sequentialSchedule : List StartStep :=
  [.check false, .create false, .check true, .create true]

/-- A fresh invocation that has not yet checked or created. -/
def freshInvocation : StartInvocation := {}

/-- One `startAnalysis` invocation run to completion in isolation: its
`findFirst` check followed by its (conditional) background create. -/
def runStartAnalysis (s : DbState) (newId : Nat) : DbState × StartInvocation :=
  stepCreate s (stepCheck s freshInvocation) newId

/-! ## AST Matcher (`searchFileAST` / `searchASTData`) -/

/-- Category of a match. -/
inductive MatchType where
  | function | class_ | interface | variable | import_ | comment | general
deriving DecidableEq

/-- One scored match (the presentation-only `snippet` string of the source
is not modelled; no claim mentions it). -/
structure Match where
  type : MatchType
  name : Option Str
  lineStart : Nat
  lineEnd : Nat
  score : Nat
  explanation : Str
deriving DecidableEq

/-- `element.location?.start?.line || 0`. -/
def locStart (loc : Option SourceLoc) : Nat :=
  match loc with
  | some l => l.startLine
  | none => 0

/-- `element.location?.end?.line || 0`. -/
def locEnd (loc : Option SourceLoc) : Nat :=
  match loc with
  | some l => l.endLine
  | none => 0

/-- `func.name || 'anonymous'` (undefined and the empty string are falsy). -/
def nameOrAnonymous (n : Option Str) : Str :=
  match n with
  | some s => if s.isEmpty then ofStr "anonymous" else s
  | none => ofStr "anonymous"

/-- Insert into a list sorted descending by `key`, keeping earlier elements
first among equal keys. -/
def insertByDesc {α β : Type} [LinearOrder β] (key : α → β) (a : α) :
    List α → List α
  | [] => [a]
  | x :: xs => if key x < key a then a :: x :: xs else x :: insertByDesc key a xs

/-- Sort descending by `key` (`.sort((a, b) => b.score - a.score)`).
Order-only divergence: this insertion sort reverses the relative order of
equal keys, whereas the engine's `Array.prototype.sort` is stable; the
theorems below depend only on membership and values, never on tie order. -/
def sortByDesc {α β : Type} [LinearOrder β] (key : α → β) (l : List α) : List α :=
  l.foldr (insertByDesc key) []

/-- `SearchService.searchFileAST`: scan the five element categories, keep an
element only above its category's inclusion threshold (functions and
classes > 20, imports > 30, variables > 25, comments > 15) and sort the
file's matches descending by score. -/
def searchFileAST (fileAst : FileAST) (searchPatterns : SearchPatternSet)
    (originalQuery : Str) : List Match :=
  let functionMatches := fileAst.functions.filterMap (fun func =>
    let score := calculateBasicMatchScore func searchPatterns originalQuery
    if score > 20 then
      some { type := .function, name := some (nameOrAnonymous func.name),
             lineStart := locStart func.location, lineEnd := locEnd func.location,
             score := score, explanation := ofStr "Function matches search criteria" }
    else none)
  let classMatches := fileAst.classes.filterMap (fun cls =>
    let score := calculateBasicMatchScore cls searchPatterns originalQuery
    if score > 20 then
      some { type := .class_, name := cls.name,
             lineStart := locStart cls.location, lineEnd := locEnd cls.location,
             score := score, explanation := ofStr "Class matches search criteria" }
    else none)
  let importMatches := fileAst.imports.filterMap (fun imp =>
    let score := calculateImportMatchScore imp searchPatterns originalQuery
    if score > 30 then
      some { type := .import_, name := some (imp.source.getD (ofStr "unknown")),
             lineStart := locStart imp.location, lineEnd := locEnd imp.location,
             score := score, explanation := ofStr "Import statement relevant to search" }
    else none)
  let variableMatches := fileAst.«variables».filterMap (fun v =>
    let score := calculateBasicMatchScore v searchPatterns originalQuery
    if score > 25 then
      some { type := .variable, name := v.name,
             lineStart := locStart v.location, lineEnd := locEnd v.location,
             score := score, explanation := ofStr "Variable matches search criteria" }
    else none)
  let commentMatches := fileAst.comments.filterMap (fun c =>
    let score := calculateCommentMatchScore c searchPatterns originalQuery
    if score > 15 then
      some { type := .comment, name := some (ofStr "Documentation"),
             lineStart := locStart c.location, lineEnd := locEnd c.location,
             score := score, explanation := ofStr "Comment contains relevant information" }
    else none)
  sortByDesc (fun m => m.score)
    (functionMatches ++ classMatches ++ importMatches ++ variableMatches ++ commentMatches)

/-- A repository row of `getSearchableRepositories`, carrying its latest
COMPLETED analysis rows. -/
structure Repository where
  id : Str
  fullName : Str
  description : Option Str
  analyses : List AnalysisRecord
deriving DecidableEq

/-- Repository reference inside a search result. -/
structure RepositoryRef where
  id : Str
  fullName : Str
  description : Option Str
deriving DecidableEq

/-- File reference inside a search result. -/
structure FileRef where
  path : Str
  language : Str
  size : Nat
deriving DecidableEq

/-- One raw per-file result handed from the matcher to the ranking step. -/
structure RawResult where
  repository : RepositoryRef
  file : FileRef
  «matches» : List Match
  astData : FileAST
deriving DecidableEq

/-- `SearchService.searchASTData`: for each repository take its first
analysis row, skip it when it has no AST artifact, and include a per-file
result exactly when the file produced at least one match. -/
def searchASTData (repositories : List Repository) (searchPatterns : SearchPatternSet)
    (originalQuery : Str) : List RawResult :=
  (repositories.map (fun repo =>
    match repo.analyses.head? with
    | none => []
    | some analysis =>
      match analysis.astData with
      | none => []
      | some astData =>
        astData.files.filterMap (fun file =>
          let fileMatches := searchFileAST file searchPatterns originalQuery
          if fileMatches.length > 0 then
            some { repository := { id := repo.id, fullName := repo.fullName,
                                   description := repo.description },
                   file := { path := file.path, language := file.language,
                             size := file.size },
                   «matches» := fileMatches, astData := file }
          else none))).flatten

/-! ## Ranker (`SearchService.scoreAndRankResults`) -/

/-- Result of one `llmService.calculateMatchScore` call. -/
structure LLMScore where
  score : ℚ
  explanation : Str
  relevantParts : List Str
deriving DecidableEq

/-- Outcome oracle of the model-assisted re-score: `none` models a call that
throws (after the generator's retries), `some` a returned score. -/
abbrev LLMScoreOracle := Str → RawResult → SearchPatternSet → Option LLMScore

/-- One scored per-file result. -/
structure SearchResult where
  repository : RepositoryRef
  file : FileRef
  «matches» : List Match
  overallScore : ℚ
deriving DecidableEq

/-- `result.matches.reduce((sum, match) => sum + match.score, 0) /
result.matches.length` (JavaScript real division, `ℚ` here). -/
def averageBasicScore (result : RawResult) : ℚ :=
  (result.«matches».foldl (fun sum m => sum + (m.score : ℚ)) 0) /
    (result.«matches».length : ℚ)

/-- Score one file of a batch: on model success blend
`0.3 × average + 0.7 × model score` and overwrite the per-match
explanations (`llmScore.explanation || match.explanation`); on model
failure (the `catch` branch) fall back to the plain average. -/
def scoreOneResult (originalQuery : Str) (searchPatterns : SearchPatternSet)
    (llm : LLMScoreOracle) (result : RawResult) : SearchResult :=
  match llm originalQuery result searchPatterns with
  | some llmScore =>
    { repository := result.repository, file := result.file,
      «matches» := result.«matches».map (fun m =>
        { m with explanation :=
            if llmScore.explanation.isEmpty then m.explanation else llmScore.explanation }),
      overallScore := averageBasicScore result * (3 / 10) + llmScore.score * (7 / 10) }
  | none =>
    { repository := result.repository, file := result.file,
      «matches» := result.«matches»,
      overallScore := averageBasicScore result }

/-- The batch loop of `scoreAndRankResults`: slices of 5 raw results are
processed in order, each file scored independently. -/
def scoreBatches (originalQuery : Str) (searchPatterns : SearchPatternSet)
    (llm : LLMScoreOracle) (rawResults : List RawResult) : List SearchResult :=
  match rawResults with
  | [] => []
  | x :: xs =>
    ((x :: xs).take 5).map (scoreOneResult originalQuery searchPatterns llm) ++
      scoreBatches originalQuery searchPatterns llm ((x :: xs).drop 5)
termination_by rawResults.length
decreasing_by
  simp only [List.length_drop, List.length_cons]
  omega

/-- `SearchService.scoreAndRankResults`: score in batches, sort descending
by `overallScore` and keep the top 50. -/
def scoreAndRankResults (rawResults : List RawResult) (originalQuery : Str)
    (searchPatterns : SearchPatternSet) (llm : LLMScoreOracle) : List SearchResult :=
  (sortByDesc (fun r => r.overallScore)
    (scoreBatches originalQuery searchPatterns llm rawResults)).take 50

/-! ## Search entry point (`SearchService.searchWithStreaming`)

The entry point is embedded together with a trace of the collaborator
invocations it performs, so that "the pattern generator / the AST Matcher
is never invoked" is a statement about the trace. -/

/-- Query intent as classified by `LLMService.detectIntent`. -/
inductive Intent where
  | code_search
  | casual_conversation
  | help_request
deriving DecidableEq

/-- `IntentDetectionResult`. -/
structure IntentDetectionResult where
  intent : Intent
  confidence : ℚ
  reasoning : Str
  suggestedResponse : Option Str
deriving DecidableEq

/-- An incoming search request (`SearchQuery`; the filters only restrict
the repository set, which the oracle already reflects). -/
structure SearchQuery where
  query : Str
deriving DecidableEq

/-- Response type tag of a `SearchResponse`. -/
inductive ResponseType where
  | code_search
  | casual_response
  | help_response
deriving DecidableEq

/-- Terminal search response. -/
structure SearchResponse where
  query : Str
  results : List SearchResult
  totalFound : Nat
  searchPatterns : Option SearchPatternSet
  summary : Str
  intentResult : IntentDetectionResult
  responseType : ResponseType
deriving DecidableEq

/-- Collaborator invocations performed by one search request.  `astMatcher`
marks the `searchASTData` scan of the stored AST artifacts. -/
inductive SearchCall where
  | detectIntent
  | generateCasualResponse
  | generateHelpResponse
  | generateSearchPatterns
  | astMatcher
  | calculateMatchScore
  | generateSearchResponse
deriving DecidableEq

/-- Oracle of the search pipeline's collaborators. -/
structure SearchOracle where
  detectIntent : Str → IntentDetectionResult
  generateCasualResponse : Str → Str
  generateHelpResponse : Str → Str
  generateSearchPatterns : Str → SearchPatternSet
  searchableRepositories : List Repository
  calculateMatchScore : LLMScoreOracle
  generateSearchResponse : Str → List SearchResult → Str

/-- `SearchService.performCodeSearch` (the code-search pipeline reached
only for `code_search` intent), with its invocation trace. -/
def performCodeSearch (searchQuery : SearchQuery) (o : SearchOracle)
    (intentResult : IntentDetectionResult) : SearchResponse × List SearchCall :=
  let searchPatterns := o.generateSearchPatterns searchQuery.query
  let repositories := o.searchableRepositories
  let rawResults := searchASTData repositories searchPatterns searchQuery.query
  let scoredResults := scoreAndRankResults rawResults searchQuery.query searchPatterns
    o.calculateMatchScore
  let summary := o.generateSearchResponse searchQuery.query (scoredResults.take 10)
  ({ query := searchQuery.query, results := scoredResults,
     totalFound := scoredResults.length, searchPatterns := some searchPatterns,
     summary := summary, intentResult := intentResult, responseType := .code_search },
   [.generateSearchPatterns, .astMatcher, .calculateMatchScore, .generateSearchResponse])

/-- `SearchService.searchWithStreaming`: classify intent first;
`casual_conversation` and `help_request` short-circuit with empty results
(`intentResult.suggestedResponse || generateCasualResponse(query)` for the
casual reply); only `code_search` proceeds to the full pipeline. -/
def searchWithStreaming (searchQuery : SearchQuery) (o : SearchOracle) :
    SearchResponse × List SearchCall :=
  let intentResult := o.detectIntent searchQuery.query
  match intentResult.intent with
  | .casual_conversation =>
    let casual : Str × List SearchCall :=
      match intentResult.suggestedResponse with
      | some s =>
        if s.isEmpty then (o.generateCasualResponse searchQuery.query,
          [.generateCasualResponse]) else (s, [])
      | none => (o.generateCasualResponse searchQuery.query, [.generateCasualResponse])
    ({ query := searchQuery.query, results := [], totalFound := 0,
       searchPatterns := none, summary := casual.1, intentResult := intentResult,
       responseType := .casual_response },
     .detectIntent :: casual.2)
  | .help_request =>
    ({ query := searchQuery.query, results := [], totalFound := 0,
       searchPatterns := none, summary := o.generateHelpResponse searchQuery.query,
       intentResult := intentResult, responseType := .help_response },
     [.detectIntent, .generateHelpResponse])
  | .code_search =>
    let r := performCodeSearch searchQuery o intentResult
    (r.1, .detectIntent :: r.2)

/-- The arithmetic mean of a raw result's heuristic match scores. -/
def meanMatchScore (result : RawResult) : ℚ :=
  ((result.«matches».map (fun m => (m.score : ℚ))).sum) / (result.«matches».length : ℚ)

/-! ## Concrete inputs for counterexamples and witnesses -/

/-- The file tree of the spec's File-Selector end-to-end example. -/
def exTree : List GitHubTree :=
  [{ path := ofStr "package.json", type := .blob },
   { path := ofStr "src/index.ts", type := .blob },
   { path := ofStr "node_modules/x/index.js", type := .blob },
   { path := ofStr "README.md", type := .blob }]

/-- A tree consisting of a single source file inside `node_modules`. -/
def exNoiseTree : List GitHubTree :=
  [{ path := ofStr "node_modules/x/index.js", type := .blob }]

/-- The element of the spec's scoring end-to-end example: named
`loginWithGoogle`, serialized text containing both `next-auth` and
`session`. -/
def exElement : ASTElement :=
  { name := some (ofStr "loginWithGoogle"),
    text := ofStr "name:loginWithGoogle body uses next-auth to create a session",
    location := none }

/-- The pattern set of the scoring example: search terms `next-auth` and
`session`, no code patterns, no framework hints. -/
def exPatterns : SearchPatternSet :=
  { searchTerms := [ofStr "next-auth", ofStr "session"], filePatterns := [],
    codePatterns := [], frameworkHints := [] }

/-- A fetched code file of `lines` lines (`lines - 1` newline characters). -/
def exCodeFile (lines : Nat) : FileContent :=
  { path := ofStr "a.ts", content := some (List.replicate (lines - 1) '\n') }

/-- 60 code files totalling 4000 lines (40 × 67 + 20 × 66). -/
def ex60Files : List FileContent :=
  List.replicate 40 (exCodeFile 67) ++ List.replicate 20 (exCodeFile 66)

/-- 10 code files totalling 6000 lines. -/
def ex10Files : List FileContent :=
  List.replicate 10 (exCodeFile 600)

/-- An analysis oracle whose TechStack generation throws after its retries
while every other stage succeeds. -/
def exOracle : AnalysisOracle :=
  { getRepositoryTree := .ok exTree,
    getMultipleFilesContent := fun _ => .ok [exCodeFile 10],
    getReadmeContent := .ok none,
    getRepositoryStats := .ok { languages := [] },
    extractFeatures := .ok [],
    analyzeStructure := .ok defaultStructure,
    extractTechStack := .error (ofStr "LLM generation failed after 3 attempts"),
    generateAST := .ok { files := [] },
    generateSummary := .ok (ofStr "summary") }

/-- A file AST with one function matching the query `login` by name. -/
def exFileAST : FileAST :=
  { path := ofStr "src/auth.ts", language := ofStr "typescript", size := 120,
    functions := [{ name := some (ofStr "loginWithGoogle"),
                    text := ofStr "name:loginWithGoogle",
                    location := some { startLine := 3, endLine := 9 } }],
    classes := [], imports := [], «variables» := [], comments := [] }

/-- A repository row whose latest COMPLETED analysis carries `exFileAST`. -/
def exRepository : Repository :=
  { id := ofStr "r1", fullName := ofStr "acme/auth", description := none,
    analyses := [{ status := .COMPLETED, features := [], «structure» := none,
                   techStack := none, codeMetrics := none,
                   astData := some { files := [exFileAST] }, summary := none,
                   complexity := none, errorMessage := none }] }

/-- Pattern set used for the matcher witness (no extra signals). -/
def exEmptyPatterns : SearchPatternSet :=
  { searchTerms := [], filePatterns := [], codePatterns := [], frameworkHints := [] }

/-- A raw per-file result with a single heuristic match of score 40. -/
def exRawResult : RawResult :=
  { repository := { id := ofStr "r1", fullName := ofStr "acme/auth", description := none },
    file := { path := ofStr "src/auth.ts", language := ofStr "typescript", size := 120 },
    «matches» := [{ type := .function, name := some (ofStr "login"),
                    lineStart := 1, lineEnd := 2, score := 40,
                    explanation := ofStr "Function matches search criteria" }],
    astData := exFileAST }

/-- A model-score oracle that always fails (every call throws). -/
def exFailingLLM : LLMScoreOracle := fun _ _ _ => none

/-- A search oracle classifying every query as casual conversation with a
canned suggested response. -/
def exCasualOracle : SearchOracle :=
  { detectIntent := fun _ =>
      { intent := .casual_conversation, confidence := 95,
        reasoning := ofStr "greeting", suggestedResponse := some (ofStr "Hello!") },
    generateCasualResponse := fun _ => ofStr "Hi there!",
    generateHelpResponse := fun _ => ofStr "I can search code.",
    generateSearchPatterns := fun _ => exEmptyPatterns,
    searchableRepositories := [exRepository],
    calculateMatchScore := exFailingLLM,
    generateSearchResponse := fun _ _ => ofStr "Here is what I found." }

/-- The query of the intent-gating witness. -/
def exQuery : SearchQuery := { query := ofStr "hi" }

/-- The raw result the matcher produces from `exRepository` for the query
`login`: the function name contains the query (+50), no other signals. -/
def exRawFromMatcher : RawResult :=
  { repository := { id := ofStr "r1", fullName := ofStr "acme/auth", description := none },
    file := { path := ofStr "src/auth.ts", language := ofStr "typescript", size := 120 },
    «matches» := [{ type := .function, name := some (ofStr "loginWithGoogle"),
                    lineStart := 3, lineEnd := 9, score := 50,
                    explanation := ofStr "Function matches search criteria" }],
    astData := exFileAST }


/-! ## Shared helper lemmas -/

/-- A score-accumulating loop is `pts` times the number of matching items. -/
lemma foldl_score_eq (l : List Str) (pred : Str → Bool) (pts init : Nat) :
    l.foldl (fun s t => if pred t then s + pts else s) init
      = init + pts * l.countP pred := by
  induction l generalizing init with
  | nil => simp
  | cons x xs ih =>
    simp only [List.foldl_cons, List.countP_cons, ih]
    cases h : pred x with
    | false => simp [h]
    | true => simp [h]; ring

/-- A sum-accumulating loop over `Nat` is the sum of the mapped list. -/
lemma foldl_add_map_sum {α : Type} (l : List α) (f : α → Nat) (init : Nat) :
    l.foldl (fun s a => s + f a) init = init + (l.map f).sum := by
  induction l generalizing init with
  | nil => simp
  | cons x xs ih => simp only [List.foldl_cons, List.map_cons, List.sum_cons, ih]; ring

/-- A sum-accumulating loop over `ℚ` is the sum of the mapped list. -/
lemma foldl_sum_eq (l : List Match) (init : ℚ) :
    l.foldl (fun s m => s + (m.score : ℚ)) init = init + (l.map (fun m => (m.score : ℚ))).sum := by
  induction l generalizing init with
  | nil => simp
  | cons x xs ih => simp only [List.foldl_cons, List.map_cons, List.sum_cons, ih]; ring

/-- Substring containment survives appending on the right. -/
lemma includes_append_right (t u s : Str) (h : includes t s = true) :
    includes (t ++ u) s = true := by
  simp only [includes, decide_eq_true_eq] at h ⊢
  exact h.trans ⟨[], u, by simp⟩

/-- `toLowerCase` distributes over concatenation. -/
lemma lower_append (t u : Str) : lower (t ++ u) = lower t ++ lower u :=
  List.map_append lowerChar t u

/-- Closed form of `calculateBasicMatchScore`. -/
lemma calculateBasicMatchScore_eq (element : ASTElement) (searchPatterns : SearchPatternSet)
    (originalQuery : Str) :
    calculateBasicMatchScore element searchPatterns originalQuery =
      min ((match element.name with
            | some n => if ¬n.isEmpty ∧ includes (lower n) (lower originalQuery) then 50 else 0
            | none => 0)
        + 30 * searchPatterns.searchTerms.countP
            (fun t => includes (lower element.text) (lower t))
        + 25 * searchPatterns.codePatterns.countP
            (fun t => includes (lower element.text) (lower t))
        + 20 * searchPatterns.frameworkHints.countP
            (fun t => includes (lower element.text) (lower t))) 100 := by
  simp only [calculateBasicMatchScore, foldl_score_eq]

/-- Closed form of `calculateImportMatchScore`. -/
lemma calculateImportMatchScore_eq (importStatement : ImportElement)
    (searchPatterns : SearchPatternSet) (originalQuery : Str) :
    calculateImportMatchScore importStatement searchPatterns originalQuery =
      min ((if includes (lower (importStatement.source.getD [])) (lower originalQuery)
            then 60 else 0)
        + 40 * searchPatterns.frameworkHints.countP
            (fun t => includes (lower (importStatement.source.getD [])) (lower t))
        + 35 * searchPatterns.searchTerms.countP
            (fun t => includes (lower (importStatement.source.getD [])) (lower t))) 100 := by
  simp only [calculateImportMatchScore, foldl_score_eq]

/-- Closed form of `calculateCommentMatchScore`. -/
lemma calculateCommentMatchScore_eq (comment : CommentElement)
    (searchPatterns : SearchPatternSet) (originalQuery : Str) :
    calculateCommentMatchScore comment searchPatterns originalQuery =
      min ((if includes (lower (comment.value.getD [])) (lower originalQuery) then 40 else 0)
        + 20 * searchPatterns.searchTerms.countP
            (fun t => includes (lower (comment.value.getD [])) (lower t))
        + (if comment.isJSDoc then 10 else 0)) 100 := by
  simp only [calculateCommentMatchScore, foldl_score_eq]

/-- Membership in an `insertByDesc` insertion. -/
lemma mem_insertByDesc {α β : Type} [LinearOrder β] (key : α → β) (a b : α)
    (l : List α) : a ∈ insertByDesc key b l ↔ a = b ∨ a ∈ l := by
  induction l with
  | nil => simp [insertByDesc]
  | cons x xs ih =>
    simp only [insertByDesc]
    split
    · simp [or_comm, or_assoc, or_left_comm]
    · simp [ih]
      tauto

/-- `sortByDesc` permutes membership. -/
lemma mem_sortByDesc {α β : Type} [LinearOrder β] (key : α → β) (a : α)
    (l : List α) : a ∈ sortByDesc key l ↔ a ∈ l := by
  induction l with
  | nil => simp [sortByDesc]
  | cons x xs ih =>
    simp only [sortByDesc, List.foldr_cons] at ih ⊢
    rw [mem_insertByDesc, ih, List.mem_cons]

/-- The batch loop scores every raw result in order, whatever the model
outcomes are. -/
lemma scoreBatches_eq_map (originalQuery : Str) (searchPatterns : SearchPatternSet)
    (llm : LLMScoreOracle) (rawResults : List RawResult) :
    scoreBatches originalQuery searchPatterns llm rawResults =
      rawResults.map (scoreOneResult originalQuery searchPatterns llm) := by
  have H : ∀ (n : Nat) (raw : List RawResult), raw.length = n →
      scoreBatches originalQuery searchPatterns llm raw =
        raw.map (scoreOneResult originalQuery searchPatterns llm) := by
    intro n
    induction n using Nat.strong_induction_on with
    | _ n ih =>
      intro raw hlen
      match raw with
      | [] => simp [scoreBatches]
      | x :: xs =>
        rw [scoreBatches]
        rw [ih ((x :: xs).drop 5).length (by subst hlen; simp; omega) _ rfl]
        rw [← List.map_append, List.take_append_drop]
  exact H rawResults.length rawResults rfl


/-- A conditional bonus is monotone in its condition. -/
lemma ite_zero_mono {a b : Bool} (k : Nat) (h : a = true → b = true) :
    (if a then k else 0) ≤ (if b then k else 0) := by
  cases a with
  | false => simp
  | true => rw [h rfl]

/-- Appending text to an element can only increase the number of matching
patterns. -/
lemma countP_includes_mono (l : List Str) (t extra : Str) :
    l.countP (fun s => includes (lower t) (lower s)) ≤
      l.countP (fun s => includes (lower (t ++ extra)) (lower s)) :=
  List.countP_mono_left (fun a _ h => by
    rw [lower_append]; exact includes_append_right _ _ _ h)

/-! ## Claim theorems -/

/-- C4.  For every function/class/variable element, pattern set and raw
query, the heuristic score is `+50` for a case-insensitive name hit of the
query, `+30` per matching search term, `+25` per matching code pattern and
`+20` per matching framework hint, capped at 100; and the element named
`loginWithGoogle` whose serialized text contains both terms `next-auth`
and `session`, scored against query `next-auth` with no code-pattern or
framework-hint matches, receives exactly 60. -/
theorem basicMatchScore_formula_and_example :
    (∀ (element : ASTElement) (searchPatterns : SearchPatternSet) (originalQuery : Str),
      calculateBasicMatchScore element searchPatterns originalQuery =
        min ((match element.name with
              | some n => if ¬n.isEmpty ∧ includes (lower n) (lower originalQuery)
                          then 50 else 0
              | none => 0)
          + 30 * searchPatterns.searchTerms.countP
              (fun t => includes (lower element.text) (lower t))
          + 25 * searchPatterns.codePatterns.countP
              (fun t => includes (lower element.text) (lower t))
          + 20 * searchPatterns.frameworkHints.countP
              (fun t => includes (lower element.text) (lower t))) 100)
  ∧ calculateBasicMatchScore exElement exPatterns (ofStr "next-auth") = 60 :=
  ⟨calculateBasicMatchScore_eq, by decide⟩

/-- C5 (counterexample).  On the spec's example tree the File Selector does
not return `["package.json", "README.md", "src/index.ts"]`: the unanchored
entry-point regex `/index\.(js|ts|py|rb|go|php)$/` lifts
`node_modules/x/index.js` (and `src/index.ts`) into the high-priority tier,
which is never filtered against noise directories. -/
theorem fileSelector_example_not_as_specified :
    getImportantFiles exTree ≠
      [ofStr "package.json", ofStr "README.md", ofStr "src/index.ts"] := by
  decide

/-- C5 (amended).  On the example tree the File Selector returns all four
paths in tree order — every entry, including the `node_modules` one,
matches a high-priority pattern. -/
theorem fileSelector_example_actual_output :
    getImportantFiles exTree =
      [ofStr "package.json", ofStr "src/index.ts", ofStr "node_modules/x/index.js",
       ofStr "README.md"] := by
  decide

/-- C7.  The element scorers are monotone — appending text that makes one
more search term (or any further pattern) match never decreases the score —
and every computed score is clamped to `[0, 100]` (scores are `Nat`, so
`0 ≤ score` holds by type; the upper bound is the `min · 100` cap). -/
theorem matchScores_monotone_and_clamped :
    (∀ (element : ASTElement) (searchPatterns : SearchPatternSet)
        (originalQuery extra : Str),
      calculateBasicMatchScore element searchPatterns originalQuery ≤
        calculateBasicMatchScore { element with text := element.text ++ extra }
          searchPatterns originalQuery)
  ∧ (∀ (comment : CommentElement) (searchPatterns : SearchPatternSet)
        (originalQuery extra : Str),
      calculateCommentMatchScore comment searchPatterns originalQuery ≤
        calculateCommentMatchScore
          { comment with value := some (comment.value.getD [] ++ extra) }
          searchPatterns originalQuery)
  ∧ (∀ (importStatement : ImportElement) (searchPatterns : SearchPatternSet)
        (originalQuery extra : Str),
      calculateImportMatchScore importStatement searchPatterns originalQuery ≤
        calculateImportMatchScore
          { importStatement with source := some (importStatement.source.getD [] ++ extra) }
          searchPatterns originalQuery)
  ∧ (∀ (element : ASTElement) (searchPatterns : SearchPatternSet) (originalQuery : Str),
      calculateBasicMatchScore element searchPatterns originalQuery ≤ 100)
  ∧ (∀ (comment : CommentElement) (searchPatterns : SearchPatternSet) (originalQuery : Str),
      calculateCommentMatchScore comment searchPatterns originalQuery ≤ 100)
  ∧ (∀ (importStatement : ImportElement) (searchPatterns : SearchPatternSet)
        (originalQuery : Str),
      calculateImportMatchScore importStatement searchPatterns originalQuery ≤ 100) := by
  refine ⟨?_, ?_, ?_, ?_, ?_, ?_⟩
  · intro element searchPatterns originalQuery extra
    rw [calculateBasicMatchScore_eq, calculateBasicMatchScore_eq]
    refine min_le_min ?_ (le_refl 100)
    refine Nat.add_le_add (Nat.add_le_add (Nat.add_le_add (le_refl _) ?_) ?_) ?_ <;>
      exact Nat.mul_le_mul_left _ (countP_includes_mono _ _ _)
  · intro comment searchPatterns originalQuery extra
    rw [calculateCommentMatchScore_eq, calculateCommentMatchScore_eq]
    refine min_le_min ?_ (le_refl 100)
    simp only [Option.getD_some]
    refine Nat.add_le_add (Nat.add_le_add ?_ ?_) (le_refl _)
    · exact ite_zero_mono 40 (fun h => by
        rw [lower_append]; exact includes_append_right _ _ _ h)
    · exact Nat.mul_le_mul_left _ (countP_includes_mono _ _ _)
  · intro importStatement searchPatterns originalQuery extra
    rw [calculateImportMatchScore_eq, calculateImportMatchScore_eq]
    refine min_le_min ?_ (le_refl 100)
    simp only [Option.getD_some]
    refine Nat.add_le_add (Nat.add_le_add ?_ ?_) ?_
    · exact ite_zero_mono 60 (fun h => by
        rw [lower_append]; exact includes_append_right _ _ _ h)
    · exact Nat.mul_le_mul_left _ (countP_includes_mono _ _ _)
    · exact Nat.mul_le_mul_left _ (countP_includes_mono _ _ _)
  · intro element searchPatterns originalQuery
    rw [calculateBasicMatchScore_eq]; exact Nat.min_le_right _ _
  · intro comment searchPatterns originalQuery
    rw [calculateCommentMatchScore_eq]; exact Nat.min_le_right _ _
  · intro importStatement searchPatterns originalQuery
    rw [calculateImportMatchScore_eq]; exact Nat.min_le_right _ _

/-- C6 (counterexample).  A path under `node_modules` can be returned by
the File Selector: a lone `node_modules/x/index.js` matches the unanchored
high-priority entry-point pattern and high-priority paths are never
filtered against noise directories. -/
theorem fileSelector_can_return_noise_path :
    (ofStr "node_modules/x/index.js") ∈ getImportantFiles exNoiseTree ∧
      includes (ofStr "node_modules/x/index.js") (ofStr "node_modules") = true := by
  decide

/-- C6 (amended).  Every path returned by the File Selector either matches
a high-priority pattern or contains none of the five noise markers: only
the medium-priority tier is filtered against noise directories. -/
theorem fileSelector_noise_only_medium_filtered :
    ∀ (tree : List GitHubTree) (path : Str), path ∈ getImportantFiles tree →
      matchesImportantPattern path = true ∨
        (includes path (ofStr "node_modules") = false ∧
         includes path (ofStr ".git") = false ∧
         includes path (ofStr "vendor") = false ∧
         includes path (ofStr "build") = false ∧
         includes path (ofStr "dist") = false) := by
  intro tree path hmem
  simp only [getImportantFiles, List.mem_append] at hmem
  rcases hmem with hhigh | hmed
  · left
    obtain ⟨f, hf, hpath⟩ := List.mem_map.mp hhigh
    obtain ⟨-, hpat⟩ := List.mem_filter.mp hf
    rw [← hpath]; exact hpat
  · right
    obtain ⟨f, hf, hpath⟩ := List.mem_map.mp hmed
    have hf' := List.take_subset 30 _ hf
    obtain ⟨-, hcond⟩ := List.mem_filter.mp hf'
    simp only [Bool.and_eq_true, Bool.not_eq_true'] at hcond
    rw [← hpath]
    exact ⟨hcond.1.1.1.1.2, hcond.1.1.1.2, hcond.1.1.2, hcond.1.2, hcond.2⟩

/-- C6 (witness). -/
theorem fileSelector_noise_only_medium_filtered_witness :
    matchesImportantPattern (ofStr "package.json") = true ∨
      (includes (ofStr "package.json") (ofStr "node_modules") = false ∧
       includes (ofStr "package.json") (ofStr ".git") = false ∧
       includes (ofStr "package.json") (ofStr "vendor") = false ∧
       includes (ofStr "package.json") (ofStr "build") = false ∧
       includes (ofStr "package.json") (ofStr "dist") = false) :=
  fileSelector_noise_only_medium_filtered exTree (ofStr "package.json") (by decide)

set_option maxRecDepth 8000 in
/-- C9.  Code metrics are a pure function of the fetched contents and the
tree: `linesOfCode` is the sum of newline-split line counts over recognized
code files; `complexity` is `high` when the code-file count exceeds 50 or
`linesOfCode` exceeds 10000, `medium` when the count exceeds 20 or
`linesOfCode` exceeds 5000, `low` otherwise; `maintainability` is
`10 − count/10` clamped to `[1, 10]`.  60 code files with 4000 total lines
give `high`; 10 code files with 6000 total lines give `medium`. -/
theorem codeMetrics_characterization_and_examples :
    (∀ (fileContents : List FileContent) (tree : List GitHubTree),
      (calculateCodeMetrics fileContents tree).linesOfCode =
        ((fileContents.filter (fun f => contentTruthy f.content && isCodeFile f.path)).map
          (fun f => match f.content with | some c => linesCount c | none => 0)).sum
      ∧ ((calculateCodeMetrics fileContents tree).complexity = .high ↔
          ((fileContents.filter (fun f => contentTruthy f.content && isCodeFile f.path)).length > 50 ∨
            (calculateCodeMetrics fileContents tree).linesOfCode > 10000))
      ∧ ((calculateCodeMetrics fileContents tree).complexity = .medium ↔
          (¬((fileContents.filter (fun f => contentTruthy f.content && isCodeFile f.path)).length > 50 ∨
              (calculateCodeMetrics fileContents tree).linesOfCode > 10000) ∧
            ((fileContents.filter (fun f => contentTruthy f.content && isCodeFile f.path)).length > 20 ∨
              (calculateCodeMetrics fileContents tree).linesOfCode > 5000)))
      ∧ (calculateCodeMetrics fileContents tree).maintainability =
          max 1 (min 10 (10 -
            ((fileContents.filter (fun f => contentTruthy f.content && isCodeFile f.path)).length : ℚ)
              / 10)))
  ∧ ((ex60Files.filter (fun f => contentTruthy f.content && isCodeFile f.path)).length = 60
      ∧ (calculateCodeMetrics ex60Files []).linesOfCode = 4000
      ∧ (calculateCodeMetrics ex60Files []).complexity = .high)
  ∧ ((ex10Files.filter (fun f => contentTruthy f.content && isCodeFile f.path)).length = 10
      ∧ (calculateCodeMetrics ex10Files []).linesOfCode = 6000
      ∧ (calculateCodeMetrics ex10Files []).complexity = .medium) := by
  refine ⟨?_, ⟨by decide, by decide, by decide⟩, ⟨by decide, by decide, by decide⟩⟩
  intro fileContents tree
  simp only [calculateCodeMetrics]
  refine ⟨by rw [foldl_add_map_sum]; simp, ?_, ?_, trivial⟩ <;>
    rw [foldl_add_map_sum] <;> simp only [Nat.zero_add] <;>
    split_ifs with h1 h2 <;> simp_all [decide_eq_true_eq]

/-- C10.  Every raw per-file result handed to the ranking step has a
non-empty matches list — a file is pushed only when at least one element
crossed its category's inclusion threshold — so the denominator of the
ranker's arithmetic mean is never zero. -/
theorem rawResults_matches_nonempty :
    ∀ (repositories : List Repository) (searchPatterns : SearchPatternSet)
      (originalQuery : Str) (result : RawResult),
      result ∈ searchASTData repositories searchPatterns originalQuery →
      result.«matches» ≠ [] ∧ (result.«matches».length : ℚ) ≠ 0 := by
  intro repositories searchPatterns originalQuery result hmem
  simp only [searchASTData] at hmem
  obtain ⟨sub, hsub, hrsub⟩ := List.mem_flatten.mp hmem
  obtain ⟨repo, -, hmap⟩ := List.mem_map.mp hsub
  rw [← hmap] at hrsub
  split at hrsub
  · cases hrsub
  · split at hrsub
    · cases hrsub
    · obtain ⟨file, -, hf⟩ := List.mem_filterMap.mp hrsub
      split at hf
      · rename_i hpos
        cases Option.some.inj hf
        exact ⟨List.ne_nil_of_length_pos hpos,
          Nat.cast_ne_zero.mpr (Nat.pos_iff_ne_zero.mp hpos)⟩
      · cases hf

/-- C10 (witness). -/
theorem rawResults_matches_nonempty_witness :
    exRawFromMatcher.«matches» ≠ [] ∧ (exRawFromMatcher.«matches».length : ℚ) ≠ 0 :=
  rawResults_matches_nonempty [exRepository] exEmptyPatterns (ofStr "login")
    exRawFromMatcher (by decide)

/-- C3.  The ranker scores every raw result (a model failure never aborts
the batch or the ranking): the batch loop equals a plain map over the raw
results.  For a file whose model call succeeds the overall score is the
0.3/0.7 blend of the heuristic mean and the model score; for a file whose
model call throws it is the unweighted heuristic mean.  Every ranked output
is the score of some raw input. -/
theorem overallScore_blend_and_fallback :
    ∀ (rawResults : List RawResult) (originalQuery : Str)
      (searchPatterns : SearchPatternSet) (llm : LLMScoreOracle),
      scoreBatches originalQuery searchPatterns llm rawResults =
        rawResults.map (scoreOneResult originalQuery searchPatterns llm)
      ∧ (∀ result ∈ rawResults, result.«matches» ≠ [] →
          (∀ s, llm originalQuery result searchPatterns = some s →
            (scoreOneResult originalQuery searchPatterns llm result).overallScore =
              meanMatchScore result * (3 / 10) + s.score * (7 / 10))
          ∧ (llm originalQuery result searchPatterns = none →
            (scoreOneResult originalQuery searchPatterns llm result).overallScore =
              meanMatchScore result))
      ∧ (∀ x ∈ scoreAndRankResults rawResults originalQuery searchPatterns llm,
          ∃ result ∈ rawResults,
            x = scoreOneResult originalQuery searchPatterns llm result) := by
  intro rawResults originalQuery searchPatterns llm
  have havg : ∀ result : RawResult, averageBasicScore result = meanMatchScore result := by
    intro result
    simp [averageBasicScore, meanMatchScore, foldl_sum_eq]
  refine ⟨scoreBatches_eq_map _ _ _ _, ?_, ?_⟩
  · intro result _ _
    constructor
    · intro s hs
      simp only [scoreOneResult, hs, havg]
    · intro hs
      simp only [scoreOneResult, hs, havg]
  · intro x hx
    simp only [scoreAndRankResults] at hx
    have hx' := List.take_subset 50 _ hx
    rw [mem_sortByDesc, scoreBatches_eq_map] at hx'
    obtain ⟨result, hmem, hres⟩ := List.mem_map.mp hx'
    exact ⟨result, hmem, hres.symm⟩

/-- C3 (witness): a file with one heuristic match of score 40 whose model
call fails receives the plain mean 40. -/
theorem overallScore_blend_and_fallback_witness :
    (scoreOneResult (ofStr "login") exEmptyPatterns exFailingLLM exRawResult).overallScore =
      meanMatchScore exRawResult :=
  ((overallScore_blend_and_fallback [exRawResult] (ofStr "login") exEmptyPatterns
    exFailingLLM).2.1 exRawResult (by decide) (by decide)).2 rfl

/-- C8.  A request classified as `casual_conversation` or `help_request`
returns an empty result list and never invokes the pattern generator or the
AST Matcher; the matcher is reached only for `code_search` intent. -/
theorem intent_gating_short_circuit :
    ∀ (searchQuery : SearchQuery) (o : SearchOracle),
      (((o.detectIntent searchQuery.query).intent = .casual_conversation ∨
        (o.detectIntent searchQuery.query).intent = .help_request) →
        (searchWithStreaming searchQuery o).1.results = [] ∧
        SearchCall.generateSearchPatterns ∉ (searchWithStreaming searchQuery o).2 ∧
        SearchCall.astMatcher ∉ (searchWithStreaming searchQuery o).2)
      ∧ (SearchCall.astMatcher ∈ (searchWithStreaming searchQuery o).2 →
        (o.detectIntent searchQuery.query).intent = .code_search) := by
  intro searchQuery o
  constructor
  · rintro (h | h)
    · cases hsr : (o.detectIntent searchQuery.query).suggestedResponse with
      | none => simp [searchWithStreaming, h, hsr]
      | some s =>
        by_cases hs : s.isEmpty <;> simp [searchWithStreaming, h, hsr, hs]
    · simp [searchWithStreaming, h]
  · intro hmem
    cases h : (o.detectIntent searchQuery.query).intent with
    | code_search => rfl
    | casual_conversation =>
      exfalso
      cases hsr : (o.detectIntent searchQuery.query).suggestedResponse with
      | none => simp [searchWithStreaming, h, hsr] at hmem
      | some s =>
        by_cases hs : s.isEmpty <;> simp [searchWithStreaming, h, hsr, hs] at hmem
    | help_request =>
      exfalso
      simp [searchWithStreaming, h] at hmem

/-- C8 (witness). -/
theorem intent_gating_short_circuit_witness :
    (searchWithStreaming exQuery exCasualOracle).1.results = [] ∧
    SearchCall.generateSearchPatterns ∉ (searchWithStreaming exQuery exCasualOracle).2 ∧
    SearchCall.astMatcher ∉ (searchWithStreaming exQuery exCasualOracle).2 :=
  (intent_gating_short_circuit exQuery exCasualOracle).1 (Or.inl rfl)

/-- C1 (counterexample).  The claim fails for the non-streaming
`analyzeRepository` entry point used by `startAnalysis`: with the TechStack
generation throwing after its retries and every other collaborator
succeeding, `analyzeRepository` marks the Analysis FAILED (the three
Summarizers run in a bare `Promise.all` with no per-stage guard), while the
streaming entry point completes on the same oracle. -/
theorem techStack_failure_aborts_analyzeRepository :
    (analyzeRepository exOracle).status = .FAILED ∧
    (analyzeRepository exOracle).status ≠ .COMPLETED ∧
    (analyzeRepositoryWithStreaming exOracle).status = .COMPLETED := by
  refine ⟨by decide, by decide, by decide⟩

/-- C1 (amended).  In the streaming entry point
`analyzeRepositoryWithStreaming`, a TechStack Summarizer failure is
isolated: with every other stage succeeding, the Analysis reaches COMPLETED
with `techStack = { languages: [] }` and the features and structure of the
non-failing Summarizers. -/
theorem techStack_failure_isolated_in_streaming :
    ∀ (o : AnalysisOracle) (tree : List GitHubTree) (fileContents : List FileContent)
      (readme : Option Str) (stats : RepoStats) (features : List RepositoryFeature)
      (structureClaim : RepositoryStructure) (astData : ASTData) (summary e : Str),
      o.getRepositoryTree = .ok tree →
      o.getMultipleFilesContent ((getImportantFiles tree).take 50) = .ok fileContents →
      o.getReadmeContent = .ok readme →
      o.getRepositoryStats = .ok stats →
      o.extractFeatures = .ok features →
      o.analyzeStructure = .ok structureClaim →
      o.extractTechStack = .error e →
      o.generateAST = .ok astData →
      o.generateSummary = .ok summary →
      (analyzeRepositoryWithStreaming o).status = .COMPLETED ∧
      (analyzeRepositoryWithStreaming o).techStack = some { languages := [] } ∧
      (analyzeRepositoryWithStreaming o).features = features ∧
      (analyzeRepositoryWithStreaming o).«structure» = some structureClaim := by
  intro o tree fileContents readme stats features structureClaim astData summary e
  intro h1 h2 h3 h4 h5 h6 h7 h8 h9
  simp [analyzeRepositoryWithStreaming, h1, h2, h3, h4, h5, h6, h7, h8, h9,
    defaultTechStack]

/-- C1 (witness). -/
theorem techStack_failure_isolated_in_streaming_witness :
    (analyzeRepositoryWithStreaming exOracle).status = .COMPLETED ∧
    (analyzeRepositoryWithStreaming exOracle).techStack = some { languages := [] } ∧
    (analyzeRepositoryWithStreaming exOracle).features = [] ∧
    (analyzeRepositoryWithStreaming exOracle).«structure» = some defaultStructure :=
  techStack_failure_isolated_in_streaming exOracle exTree [exCodeFile 10] none
    { languages := [] } [] defaultStructure { files := [] } (ofStr "summary")
    (ofStr "LLM generation failed after 3 attempts") rfl rfl rfl rfl rfl rfl rfl rfl rfl

/-- A repository with no IN_PROGRESS analysis has an empty `findFirst`. -/
lemma findInProgress_eq_none (s : DbState) (h : countInProgress s = 0) :
    findInProgress s = none := by
  rw [findInProgress, List.find?_eq_none]
  intro x hx
  simp only [countInProgress, List.length_eq_zero, List.filter_eq_nil_iff] at h
  exact fun hpx => h x hx hpx

/-- `findFirst` over the table after appending a fresh IN_PROGRESS row. -/
lemma findInProgress_append_inprogress (s : DbState) (h : findInProgress s = none)
    (n : Nat) :
    findInProgress (s ++ [{ id := n, status := .IN_PROGRESS }]) =
      some { id := n, status := .IN_PROGRESS } := by
  unfold findInProgress at h ⊢
  induction s with
  | nil => simp [List.find?]
  | cons x xs ih =>
    cases hpx : (x.status == AnalysisStatus.IN_PROGRESS) with
    | true => simp [List.find?_cons, hpx] at h
    | false =>
      simp only [List.cons_append, List.find?_cons, hpx] at h ⊢
      exact ih h

/-- IN_PROGRESS rows are counted additively over table concatenation. -/
lemma countInProgress_append (s t : DbState) :
    countInProgress (s ++ t) = countInProgress s + countInProgress t := by
  simp [countInProgress, List.filter_append]

/-- C2 (counterexample).  The `findFirst` check and the background
`analysis.create` of `startAnalysis` are two separate persistence
operations with the create inside an unawaited task, so two invocations in
quick succession can interleave check-check-create-create and leave TWO
IN_PROGRESS Analysis records, refuting "at most one IN_PROGRESS at any
time" and "two calls in quick succession yield exactly one". -/
theorem startAnalysis_overlap_creates_two_records :
    countInProgress
      (runSchedule overlappingSchedule [] freshInvocation freshInvocation 0).1 = 2 := by
  decide

/-- C2 (amended).  The single-flight guarantee holds when the invocations
do not overlap: an invocation whose check sees an existing IN_PROGRESS
record creates nothing and returns that record, and two invocations run
sequentially (each background create completing before the next check)
leave exactly one IN_PROGRESS record, the second creating nothing. -/
theorem startAnalysis_single_flight_sequential :
    (∀ (s : DbState) (newId : Nat), (∃ r ∈ s, r.status = .IN_PROGRESS) →
      (runStartAnalysis s newId).1 = s ∧
      ∃ r, (stepCheck s freshInvocation).foundExisting = some r ∧ r ∈ s ∧
        r.status = .IN_PROGRESS)
  ∧ (∀ (s : DbState) (n : Nat), countInProgress s = 0 →
      countInProgress (runSchedule sequentialSchedule s freshInvocation freshInvocation n).1
        = 1 ∧
      (runSchedule sequentialSchedule s freshInvocation freshInvocation n).2.2.created
        = false) := by
  constructor
  · intro s newId h
    obtain ⟨r, hrmem, hrstatus⟩ := h
    have hsome : (findInProgress s).isSome := by
      rw [findInProgress]
      exact List.find?_isSome.mpr ⟨r, hrmem, by simp [hrstatus]⟩
    obtain ⟨r', hr'⟩ := Option.isSome_iff_exists.mp hsome
    have hr'find : s.find? (fun a => a.status == AnalysisStatus.IN_PROGRESS) = some r' := by
      simpa [findInProgress] using hr'
    refine ⟨?_, r', ?_, List.mem_of_find?_eq_some hr'find, ?_⟩
    · simp [runStartAnalysis, stepCreate, stepCheck, hr']
    · simp [stepCheck, hr']
    · have := List.find?_some hr'find
      simpa using this
  · intro s n h0
    have hnone : findInProgress s = none := findInProgress_eq_none s h0
    simp only [sequentialSchedule, runSchedule, stepCheck, stepCreate, freshInvocation,
      hnone, Option.isNone_none, Bool.and_true, Bool.and_self, Bool.not_false]
    have hall : ∀ a ∈ s, ¬(a.status = AnalysisStatus.IN_PROGRESS) := by
      intro a ha
      simp only [countInProgress, List.length_eq_zero, List.filter_eq_nil_iff] at h0
      exact fun hpa => h0 a ha (by simp [hpa])
    simp [hnone, findInProgress_append_inprogress s hnone n, countInProgress_append,
      h0, countInProgress]
    exact hall

/-- C2 (witness). -/
theorem startAnalysis_single_flight_sequential_witness :
    ((runStartAnalysis [{ id := 0, status := .IN_PROGRESS }] 1).1 =
      [{ id := 0, status := .IN_PROGRESS }]) ∧
    countInProgress
      (runSchedule sequentialSchedule [] freshInvocation freshInvocation 0).1 = 1 :=
  ⟨(startAnalysis_single_flight_sequential.1 [{ id := 0, status := .IN_PROGRESS }] 1
      ⟨{ id := 0, status := .IN_PROGRESS }, by decide, rfl⟩).1,
   (startAnalysis_single_flight_sequential.2 [] 0 rfl).1⟩

end Synapsis
